import Mathlib

/-!
Verification of the D3D command-list lifecycle manager
(src/gpu/d3d/GrD3DCommandList.cpp).

The wrapper class GrD3DCommandList owns a native command allocator and a
native graphics command list and exposes close / submit / reset.  Two
factories, GrD3DDirectCommandList.Make and GrD3DCopyCommandList.Make,
allocate both native objects from a device.

The native D3D12 layer (device, allocators, lists, queues) is an external
collaborator of the repository; it is modelled here as explicit state
(D3DWorld) with the contract the spec describes: creation calls hand out
fresh exclusively-owned handles, Close finalizes an open list, a list Reset
re-opens a closed list onto an allocator, an allocator Reset reclaims its
backing storage, and ExecuteCommandLists records a batch hand-off on a
queue.  Every fallible native call returns an HRESULT; failure of any
individual call can be injected through a schedule (modelling device
loss), and native misuse (closing a closed list, resetting an open list)
is surfaced as a failed result, as the spec states.

SkDEBUGCODE / SkASSERT are compile-time conditional in the source (in a
non-debug build the HRESULT is not even bound to a name: the assignment
sits inside SkDEBUGCODE), so every wrapper operation takes a debug flag:
with debug on, a failed native call is a fatal assertion (Outcome.fatal);
with debug off the status is ignored and execution continues.
-/

/-- Engine type constants of the native layer (D3D12_COMMAND_LIST_TYPE);
the source uses exactly DIRECT and COPY. -/
inductive D3D12_COMMAND_LIST_TYPE where
  | DIRECT
  | COPY
deriving DecidableEq, Repr

/-- Native success/failure status: HRESULT is a signed code. -/
abbrev HRESULT := Int

/-- SUCCEEDED(hr) holds for non-negative codes. -/
def SUCCEEDED (hr : HRESULT) : Bool := decide (0 ≤ hr)

/-- Generic success code. -/
def S_OK : HRESULT := 0

/-- Generic failure code (0x80004005 as a signed 32-bit value). -/
def E_FAIL : HRESULT := -2147467259

/-- State of one native command allocator: the engine type requested at
creation and the backing storage of commands recorded against it since its
last Reset. -/
structure AllocatorState where
  listType : D3D12_COMMAND_LIST_TYPE
  storage : List Nat
deriving DecidableEq, Repr

/-- State of one native graphics command list: its engine type, the
allocator it is currently bound to, whether it is open for recording, and
the commands currently recorded in it. -/
structure ListState where
  listType : D3D12_COMMAND_LIST_TYPE
  allocator : Nat
  isOpen : Bool
  commands : List Nat
deriving DecidableEq, Repr

/-- One native call, as logged in the world's trace (oldest first).  The
trace orders the side effects of a wrapper operation. -/
inductive NativeEvent where
  | createCommandAllocator (ty : D3D12_COMMAND_LIST_TYPE) (allocId : Nat)
  | createCommandList (ty : D3D12_COMMAND_LIST_TYPE) (allocId : Nat) (listId : Nat)
  | close (listId : Nat)
  | executeCommandLists (queueId : Nat) (batch : List Nat)
  | listReset (listId : Nat) (allocId : Nat)
  | allocatorReset (allocId : Nat)
deriving DecidableEq, Repr

/-- Lookup in an association list keyed by handle. -/
def lookupA {α : Type} (id : Nat) : List (Nat × α) → Option α
  | [] => none
  | p :: ps => if p.1 = id then some p.2 else lookupA id ps

/-- Replace the value stored at a handle (no effect when absent). -/
def setA {α : Type} (id : Nat) (v : α) : List (Nat × α) → List (Nat × α)
  | [] => []
  | p :: ps => (if p.1 = id then (id, v) else p) :: setA id v ps

/-- Store a value at a handle, appending a fresh entry when absent. -/
def insertA {α : Type} (id : Nat) (v : α) (l : List (Nat × α)) : List (Nat × α) :=
  if (lookupA id l).isSome then setA id v l else l ++ [(id, v)]

/-- Modelled from the spec: the whole native layer visible to this core.
Handle 0 is the null handle (a gr_cp smart pointer starts null); fresh
handles are nextId + 1, so they are never 0.  queues maps a queue handle to
the batches handed to it, oldest first.  failSchedule injects native-call
failure: each fallible native call consumes one entry and fails when it is
true (an empty schedule means a healthy device).  trace logs every
successful native call, oldest first. -/
structure D3DWorld where
  allocators : List (Nat × AllocatorState)
  lists : List (Nat × ListState)
  queues : List (Nat × List (List Nat))
  nextId : Nat
  failSchedule : List Bool
  trace : List NativeEvent
deriving DecidableEq, Repr

/-- Consume one entry of the failure schedule: the next fallible native
call fails exactly when the head is true. -/
def D3DWorld.popFail (w : D3DWorld) : Bool × D3DWorld :=
  match w.failSchedule with
  | [] => (false, w)
  | b :: bs => (b, { w with failSchedule := bs })

/-- Modelled from the spec: ID3D12Device.CreateCommandAllocator.  On
success a fresh allocator of the requested engine type with empty backing
storage is handed out; on failure the out-parameter stays null (0). -/
def D3DWorld.createCommandAllocator (w0 : D3DWorld) (ty : D3D12_COMMAND_LIST_TYPE) :
    HRESULT × Nat × D3DWorld :=
  let (fail, w) := w0.popFail
  if fail then (E_FAIL, 0, w)
  else
    let id := w.nextId + 1
    (S_OK, id,
      { w with allocators := w.allocators ++ [(id, ⟨ty, []⟩)],
               nextId := id,
               trace := w.trace ++ [.createCommandAllocator ty id] })

/-- Modelled from the spec: ID3D12Device.CreateCommandList.  On success a
fresh list of the requested engine type is created, paired with the given
allocator and open for recording; the call fails when the allocator handle
is not a live allocator (for example null). -/
def D3DWorld.createCommandList (w0 : D3DWorld) (ty : D3D12_COMMAND_LIST_TYPE)
    (allocId : Nat) : HRESULT × Nat × D3DWorld :=
  let (fail, w) := w0.popFail
  if fail then (E_FAIL, 0, w)
  else
    match lookupA allocId w.allocators with
    | none => (E_FAIL, 0, w)
    | some _ =>
      let id := w.nextId + 1
      (S_OK, id,
        { w with lists := w.lists ++ [(id, ⟨ty, allocId, true, []⟩)],
                 nextId := id,
                 trace := w.trace ++ [.createCommandList ty allocId id] })

/-- Modelled from the spec: ID3D12GraphicsCommandList.Close.  Finalizes an
open list so no further commands can be appended; fails on a list that is
not open (misuse is surfaced as a failed result) or on a dead handle. -/
def D3DWorld.listClose (w0 : D3DWorld) (listId : Nat) : HRESULT × D3DWorld :=
  let (fail, w) := w0.popFail
  if fail then (E_FAIL, w)
  else
    match lookupA listId w.lists with
    | none => (E_FAIL, w)
    | some l =>
      if l.isOpen then
        (S_OK, { w with lists := setA listId { l with isOpen := false } w.lists,
                        trace := w.trace ++ [.close listId] })
      else (E_FAIL, w)

/-- Modelled from the spec: ID3D12GraphicsCommandList.Reset.  Re-opens a
closed list for a new recording pass, binding it to the given allocator
and discarding its recorded commands; fails on a list that is still open
(misuse is surfaced as a failed result) or on a dead handle. -/
def D3DWorld.listReset (w0 : D3DWorld) (listId allocId : Nat) : HRESULT × D3DWorld :=
  let (fail, w) := w0.popFail
  if fail then (E_FAIL, w)
  else
    match lookupA listId w.lists, lookupA allocId w.allocators with
    | some l, some _ =>
      if l.isOpen then (E_FAIL, w)
      else
        (S_OK, { w with lists := setA listId ⟨l.listType, allocId, true, []⟩ w.lists,
                        trace := w.trace ++ [.listReset listId allocId] })
    | _, _ => (E_FAIL, w)

/-- Modelled from the spec: ID3D12CommandAllocator.Reset.  Reclaims the
allocator's backing storage.  The in-flight hazard (resetting while the
GPU still consumes its commands) is an external contract, not a failure
condition at this layer. -/
def D3DWorld.allocatorReset (w0 : D3DWorld) (allocId : Nat) : HRESULT × D3DWorld :=
  let (fail, w) := w0.popFail
  if fail then (E_FAIL, w)
  else
    match lookupA allocId w.allocators with
    | none => (E_FAIL, w)
    | some a =>
      (S_OK, { w with allocators := setA allocId ⟨a.listType, []⟩ w.allocators,
                      trace := w.trace ++ [.allocatorReset allocId] })

/-- Modelled from the spec: ID3D12CommandQueue.ExecuteCommandLists.  The
queue accepts the batch for asynchronous execution; the hand-off is
recorded as one appended batch and one trace event. -/
def D3DWorld.executeCommandLists (w : D3DWorld) (queueId : Nat) (batch : List Nat) :
    D3DWorld :=
  let old := (lookupA queueId w.queues).getD []
  { w with queues := insertA queueId (old ++ [batch]) w.queues,
           trace := w.trace ++ [.executeCommandLists queueId batch] }

/-- Result of running a wrapper operation: either the process aborted on a
failed SkASSERT (fatal), or the operation returned normally. -/
inductive Outcome (α : Type) where
  | fatal
  | ok (a : α)
deriving DecidableEq, Repr

/-- Whether the operation returned normally. -/
def Outcome.isOk {α : Type} : Outcome α → Bool
  | .fatal => false
  | .ok _ => true

/-- The value of a normal return, with a default for the fatal case. -/
def Outcome.getD {α : Type} : Outcome α → α → α
  | .ok a, _ => a
  | .fatal, d => d

/-- SkASSERT(cond) followed by returning a: fatal when assertions are
compiled in (debug) and the condition fails, a normal return otherwise. -/
def skAssertThen {α : Type} (debug : Bool) (cond : Bool) (a : α) : Outcome α :=
  if debug && !cond then .fatal else .ok a

/-- The wrapper: it owns one allocator handle and one command-list handle,
stored at construction (gr_cp members fAllocator and fCommandList) and
never reassigned. -/
structure GrD3DCommandList where
  fAllocator : Nat
  fCommandList : Nat
deriving DecidableEq, Repr

/-- GrD3DCommandList.close: fCommandList.Close(), then SkASSERT(SUCCEEDED(hr)). -/
def GrD3DCommandList.close (debug : Bool) (self : GrD3DCommandList) (w : D3DWorld) :
    Outcome D3DWorld :=
  let (hr, w1) := w.listClose self.fCommandList
  skAssertThen debug (SUCCEEDED hr) w1

/-- GrD3DCommandList.submit: builds the one-element array ppCommandLists,
calls queue.ExecuteCommandLists(1, ppCommandLists), then
fCommandList.Reset(fAllocator, nullptr) with SkASSERT(SUCCEEDED(hr)). -/
def GrD3DCommandList.submit (debug : Bool) (self : GrD3DCommandList) (queue : Nat)
    (w : D3DWorld) : Outcome D3DWorld :=
  let ppCommandLists : List Nat := [self.fCommandList]
  let w1 := w.executeCommandLists queue ppCommandLists
  let (hr, w2) := w1.listReset self.fCommandList self.fAllocator
  skAssertThen debug (SUCCEEDED hr) w2

/-- GrD3DCommandList.reset: fAllocator.Reset(), then SkASSERT(SUCCEEDED(hr)). -/
def GrD3DCommandList.reset (debug : Bool) (self : GrD3DCommandList) (w : D3DWorld) :
    Outcome D3DWorld :=
  let (hr, w1) := w.allocatorReset self.fAllocator
  skAssertThen debug (SUCCEEDED hr) w1

/-- The Direct specialization adds no state of its own. -/
abbrev GrD3DDirectCommandList := GrD3DCommandList

/-- The Copy specialization adds no state of its own. -/
abbrev GrD3DCopyCommandList := GrD3DCommandList

/-- GrD3DDirectCommandList.Make: CreateCommandAllocator(DIRECT) with
SkASSERT, CreateCommandList(0, DIRECT, allocator, nullptr) with SkASSERT,
then construct the wrapper and return it as a unique_ptr (modelled as an
Option: some is a non-null owning pointer). -/
def GrD3DDirectCommandList.Make (debug : Bool) (w : D3DWorld) :
    Outcome (Option GrD3DDirectCommandList × D3DWorld) :=
  let (hr1, allocator, w1) := w.createCommandAllocator .DIRECT
  if debug && !(SUCCEEDED hr1) then .fatal
  else
    let (hr2, commandList, w2) := w1.createCommandList .DIRECT allocator
    if debug && !(SUCCEEDED hr2) then .fatal
    else .ok (some ⟨allocator, commandList⟩, w2)

/-- GrD3DCopyCommandList.Make: identical to the Direct factory except that
the command-list creation step requests the COPY type; the allocator is
still created with the DIRECT kind. -/
def GrD3DCopyCommandList.Make (debug : Bool) (w : D3DWorld) :
    Outcome (Option GrD3DCopyCommandList × D3DWorld) :=
  let (hr1, allocator, w1) := w.createCommandAllocator .DIRECT
  if debug && !(SUCCEEDED hr1) then .fatal
  else
    let (hr2, commandList, w2) := w1.createCommandList .COPY allocator
    if debug && !(SUCCEEDED hr2) then .fatal
    else .ok (some ⟨allocator, commandList⟩, w2)

/-- Whether the wrapper's list is currently open for recording, i.e. the
wrapper is in the Recording state of the lifecycle. -/
def D3DWorld.listOpen (w : D3DWorld) (id : Nat) : Bool :=
  match lookupA id w.lists with
  | some l => l.isOpen
  | none => false

/-- The allocator a list is currently bound to. -/
def D3DWorld.listBoundAllocator (w : D3DWorld) (id : Nat) : Option Nat :=
  (lookupA id w.lists).map (fun l => l.allocator)

/-- The backing storage held by an allocator (empty for a dead handle). -/
def D3DWorld.allocStorage (w : D3DWorld) (id : Nat) : List Nat :=
  match lookupA id w.allocators with
  | some a => a.storage
  | none => []

/-- The batches handed to a queue so far, oldest first. -/
def D3DWorld.queueBatches (w : D3DWorld) (q : Nat) : List (List Nat) :=
  (lookupA q w.queues).getD []

/-- All live handles are at most nextId, so freshly created handles are new. -/
def D3DWorld.idsBelow (w : D3DWorld) : Bool :=
  (w.allocators.all (fun p => p.1 ≤ w.nextId)) && (w.lists.all (fun p => p.1 ≤ w.nextId))

/-- One wrapper operation, for reasoning about arbitrary call sequences. -/
inductive WrapperOp where
  | close
  | submit (q : Nat)
  | reset
deriving DecidableEq, Repr

/-- Run one wrapper operation. -/
def runOp (debug : Bool) (cl : GrD3DCommandList) (op : WrapperOp) (w : D3DWorld) :
    Outcome D3DWorld :=
  match op with
  | .close => cl.close debug w
  | .submit q => cl.submit debug q w
  | .reset => cl.reset debug w

/-- Run a sequence of wrapper operations, stopping at a fatal assertion. -/
def runOps (debug : Bool) (cl : GrD3DCommandList) : List WrapperOp → D3DWorld →
    Outcome D3DWorld
  | [], w => .ok w
  | op :: ops, w =>
    match runOp debug cl op w with
    | .fatal => .fatal
    | .ok w1 => runOps debug cl ops w1

/-- A fresh healthy world holding one empty execution queue (handle 7). -/
def emptyWorld : D3DWorld := ⟨[], [], [(7, [])], 0, [], []⟩

/-- The world right after GrD3DDirectCommandList.Make on emptyWorld: the
factory returned the wrapper pairing allocator 1 with open list 2. -/
def madeWorld : D3DWorld :=
  ⟨[(1, ⟨.DIRECT, []⟩)], [(2, ⟨.DIRECT, 1, true, []⟩)], [(7, [])], 2, [],
   [.createCommandAllocator .DIRECT 1, .createCommandList .DIRECT 1 2]⟩

/-- A world holding the wrapper pairing allocator 1 with list 2, after a
recording pass was closed: the list is closed holding command 5 and the
allocator's backing storage holds that command. -/
def closedWorld : D3DWorld :=
  ⟨[(1, ⟨.DIRECT, [5]⟩)], [(2, ⟨.DIRECT, 1, false, [5]⟩)], [(7, [])], 2, [], []⟩

/-- A world whose next fallible native call fails (device loss), holding
the wrapper pairing allocator 1 with closed list 2. -/
def lostWorld : D3DWorld :=
  ⟨[(1, ⟨.DIRECT, []⟩)], [(2, ⟨.DIRECT, 1, false, []⟩)], [(7, [])], 2, [true], []⟩

/-- A fresh world whose first native call succeeds and whose second fails:
allocator creation succeeds, list creation fails. -/
def listFailWorld : D3DWorld := ⟨[], [], [], 0, [false, true], []⟩

/-- A world injecting failure into both native creation calls of one
factory invocation. -/
def bothFailWorld : D3DWorld := ⟨[], [], [], 0, [true, true], []⟩

/-- Writing at a handle is read back at that handle (when it was live). -/
theorem lookupA_setA_self {α : Type} {id : Nat} (v : α) :
    ∀ {l : List (Nat × α)} {x : α}, lookupA id l = some x →
      lookupA id (setA id v l) = some v := by
  intro l
  induction l with
  | nil => intro x h; simp [lookupA] at h
  | cons p ps ih =>
    intro x h
    by_cases hp : p.1 = id
    · simp [lookupA, setA, hp]
    · simp only [lookupA, setA, hp, if_false] at h ⊢
      exact ih h

/-- Writing at a handle does not change reads at other handles. -/
theorem lookupA_setA_ne {α : Type} {j id : Nat} (v : α) (hj : j ≠ id) :
    ∀ l : List (Nat × α), lookupA j (setA id v l) = lookupA j l := by
  intro l
  induction l with
  | nil => rfl
  | cons p ps ih =>
    by_cases hp : p.1 = id
    · have : ¬ (id = j) := fun h => hj h.symm
      simp [lookupA, setA, hp, this, hj, ih]
    · simp [lookupA, setA, hp, ih]

/-- Lookup ignores an appended tail when the handle is live on the left. -/
theorem lookupA_append_left {α : Type} {id : Nat} {l1 : List (Nat × α)} {x : α}
    (l2 : List (Nat × α)) (h : lookupA id l1 = some x) :
    lookupA id (l1 ++ l2) = some x := by
  induction l1 with
  | nil => simp [lookupA] at h
  | cons p ps ih =>
    by_cases hp : p.1 = id
    · simp [lookupA, hp] at h ⊢; exact h
    · simp only [lookupA, hp, if_false, List.cons_append] at h ⊢
      exact ih h

/-- Lookup falls through to an appended tail when the handle is dead on the
left. -/
theorem lookupA_append_right {α : Type} {id : Nat} {l1 : List (Nat × α)}
    (l2 : List (Nat × α)) (h : lookupA id l1 = none) :
    lookupA id (l1 ++ l2) = lookupA id l2 := by
  induction l1 with
  | nil => rfl
  | cons p ps ih =>
    by_cases hp : p.1 = id
    · simp [lookupA, hp] at h
    · simp only [lookupA, hp, if_false, List.cons_append] at h ⊢
      exact ih h

/-- Inserting at a handle is read back at that handle. -/
theorem lookupA_insertA_self {α : Type} (id : Nat) (v : α) (l : List (Nat × α)) :
    lookupA id (insertA id v l) = some v := by
  unfold insertA
  by_cases h : (lookupA id l).isSome
  · obtain ⟨x, hx⟩ := Option.isSome_iff_exists.mp h
    simp [h, lookupA_setA_self v hx]
  · have hn : lookupA id l = none := Option.not_isSome_iff_eq_none.mp h
    simp only [h, if_false, Bool.false_eq_true]
    rw [lookupA_append_right _ hn]
    simp [lookupA]

/-- Inserting at a handle does not change reads at other handles. -/
theorem lookupA_insertA_ne {α : Type} {j id : Nat} (v : α) (l : List (Nat × α))
    (hj : j ≠ id) : lookupA j (insertA id v l) = lookupA j l := by
  unfold insertA
  by_cases h : (lookupA id l).isSome
  · simp [h, lookupA_setA_ne v hj]
  · simp only [h, if_false, Bool.false_eq_true]
    by_cases hjl : (lookupA j l).isSome
    · obtain ⟨x, hx⟩ := Option.isSome_iff_exists.mp hjl
      rw [lookupA_append_left _ hx, hx]
    · have hn : lookupA j l = none := Option.not_isSome_iff_eq_none.mp hjl
      have hij : id ≠ j := fun hh => hj hh.symm
      rw [lookupA_append_right _ hn, hn]
      simp [lookupA, hij]

/-- Handles above every live handle are dead. -/
theorem lookupA_none_of_all_le {α : Type} {j n : Nat} {l : List (Nat × α)}
    (h : l.all (fun p => p.1 ≤ n) = true) (hj : n < j) : lookupA j l = none := by
  induction l with
  | nil => rfl
  | cons p ps ih =>
    simp only [List.all_cons, Bool.and_eq_true, decide_eq_true_eq] at h
    have hp : p.1 ≠ j := Nat.ne_of_lt (Nat.lt_of_le_of_lt h.1 hj)
    simp only [lookupA, hp, if_false]
    exact ih h.2

/-- A healthy device consumes nothing from an empty failure schedule. -/
theorem popFail_nil {w : D3DWorld} (h : w.failSchedule = []) : w.popFail = (false, w) := by
  unfold D3DWorld.popFail
  rw [h]

/-- Consuming the failure schedule changes no other component. -/
theorem popFail_frame (w : D3DWorld) :
    (w.popFail).2.allocators = w.allocators ∧ (w.popFail).2.lists = w.lists ∧
    (w.popFail).2.queues = w.queues ∧ (w.popFail).2.nextId = w.nextId ∧
    (w.popFail).2.trace = w.trace := by
  cases h : w.failSchedule <;> simp [D3DWorld.popFail, h]

/-- Case analysis of the native Close call: it either fails and leaves the
native objects untouched, or closes the targeted open list. -/
theorem listClose_cases (w0 : D3DWorld) (i : Nat) :
    ((w0.listClose i).1 = E_FAIL ∧
      (w0.listClose i).2.allocators = w0.allocators ∧
      (w0.listClose i).2.lists = w0.lists ∧
      (w0.listClose i).2.queues = w0.queues ∧
      (w0.listClose i).2.nextId = w0.nextId ∧
      (w0.listClose i).2.trace = w0.trace) ∨
    (∃ l, lookupA i w0.lists = some l ∧ l.isOpen = true ∧
      (w0.listClose i).1 = S_OK ∧
      (w0.listClose i).2.allocators = w0.allocators ∧
      (w0.listClose i).2.lists = setA i { l with isOpen := false } w0.lists ∧
      (w0.listClose i).2.queues = w0.queues ∧
      (w0.listClose i).2.nextId = w0.nextId ∧
      (w0.listClose i).2.trace = w0.trace ++ [.close i]) := by
  obtain ⟨ha, hl, hq, hn, ht⟩ := popFail_frame w0
  unfold D3DWorld.listClose
  rcases hp : w0.popFail with ⟨fail, w⟩
  rw [hp] at ha hl hq hn ht
  cases fail with
  | true => left; simp_all
  | false =>
    cases hlk : lookupA i w.lists with
    | none => left; simp_all
    | some l =>
      cases ho : l.isOpen with
      | false => left; simp_all
      | true =>
        right
        refine ⟨l, by rw [← hl]; exact hlk, ho, ?_⟩
        simp_all

/-- The queue hand-off appends exactly the given batch for the given queue
and touches nothing else. -/
theorem executeCommandLists_frame (w : D3DWorld) (q : Nat) (b : List Nat) :
    (w.executeCommandLists q b).allocators = w.allocators ∧
    (w.executeCommandLists q b).lists = w.lists ∧
    (w.executeCommandLists q b).nextId = w.nextId ∧
    (w.executeCommandLists q b).failSchedule = w.failSchedule ∧
    (w.executeCommandLists q b).queueBatches q = w.queueBatches q ++ [b] ∧
    (∀ j, j ≠ q → lookupA j (w.executeCommandLists q b).queues = lookupA j w.queues) ∧
    (w.executeCommandLists q b).trace = w.trace ++ [.executeCommandLists q b] := by
  refine ⟨rfl, rfl, rfl, rfl, ?_, ?_, rfl⟩
  · unfold D3DWorld.executeCommandLists D3DWorld.queueBatches
    simp [lookupA_insertA_self]
  · intro j hj
    unfold D3DWorld.executeCommandLists
    simp only []
    exact lookupA_insertA_ne _ _ hj

/-- Case analysis of the native list Reset call: it either fails and leaves
the native objects untouched, or re-opens the targeted closed list onto the
given allocator. -/
theorem listReset_cases (w0 : D3DWorld) (i a : Nat) :
    ((w0.listReset i a).1 = E_FAIL ∧
      (w0.listReset i a).2.allocators = w0.allocators ∧
      (w0.listReset i a).2.lists = w0.lists ∧
      (w0.listReset i a).2.queues = w0.queues ∧
      (w0.listReset i a).2.nextId = w0.nextId ∧
      (w0.listReset i a).2.trace = w0.trace) ∨
    (∃ l, lookupA i w0.lists = some l ∧ l.isOpen = false ∧
      (lookupA a w0.allocators).isSome = true ∧
      (w0.listReset i a).1 = S_OK ∧
      (w0.listReset i a).2.allocators = w0.allocators ∧
      (w0.listReset i a).2.lists = setA i ⟨l.listType, a, true, []⟩ w0.lists ∧
      (w0.listReset i a).2.queues = w0.queues ∧
      (w0.listReset i a).2.nextId = w0.nextId ∧
      (w0.listReset i a).2.trace = w0.trace ++ [.listReset i a]) := by
  obtain ⟨ha, hl, hq, hn, ht⟩ := popFail_frame w0
  unfold D3DWorld.listReset
  rcases hp : w0.popFail with ⟨fail, w⟩
  rw [hp] at ha hl hq hn ht
  cases fail with
  | true => left; simp_all
  | false =>
    cases hlk : lookupA i w.lists with
    | none => left; simp_all
    | some l =>
      cases hak : lookupA a w.allocators with
      | none => left; simp_all
      | some al =>
        cases ho : l.isOpen with
        | true => left; simp_all
        | false =>
          right
          refine ⟨l, by rw [← hl]; exact hlk, ho, ?_⟩
          simp_all

/-- Case analysis of the native allocator Reset call: it either fails and
leaves the native objects untouched, or reclaims the targeted allocator's
backing storage. -/
theorem allocatorReset_cases (w0 : D3DWorld) (a : Nat) :
    ((w0.allocatorReset a).1 = E_FAIL ∧
      (w0.allocatorReset a).2.allocators = w0.allocators ∧
      (w0.allocatorReset a).2.lists = w0.lists ∧
      (w0.allocatorReset a).2.queues = w0.queues ∧
      (w0.allocatorReset a).2.nextId = w0.nextId ∧
      (w0.allocatorReset a).2.trace = w0.trace) ∨
    (∃ al, lookupA a w0.allocators = some al ∧
      (w0.allocatorReset a).1 = S_OK ∧
      (w0.allocatorReset a).2.allocators = setA a ⟨al.listType, []⟩ w0.allocators ∧
      (w0.allocatorReset a).2.lists = w0.lists ∧
      (w0.allocatorReset a).2.queues = w0.queues ∧
      (w0.allocatorReset a).2.nextId = w0.nextId ∧
      (w0.allocatorReset a).2.trace = w0.trace ++ [.allocatorReset a]) := by
  obtain ⟨ha, hl, hq, hn, ht⟩ := popFail_frame w0
  unfold D3DWorld.allocatorReset
  rcases hp : w0.popFail with ⟨fail, w⟩
  rw [hp] at ha hl hq hn ht
  cases fail with
  | true => left; simp_all
  | false =>
    cases hak : lookupA a w.allocators with
    | none => left; simp_all
    | some al =>
      right
      refine ⟨al, by rw [← ha]; exact hak, ?_⟩
      simp_all

/-- On a healthy device, closing a live open list succeeds and closes it. -/
theorem listClose_success {w : D3DWorld} {i : Nat} {l : ListState}
    (hs : w.failSchedule = []) (hl : lookupA i w.lists = some l) (ho : l.isOpen = true) :
    w.listClose i = (S_OK,
      { w with lists := setA i { l with isOpen := false } w.lists,
               trace := w.trace ++ [.close i] }) := by
  unfold D3DWorld.listClose
  rw [popFail_nil hs]
  simp [hl, ho]

/-- On a healthy device, resetting a live closed list onto a live allocator
succeeds and re-opens it, cleared, bound to that allocator. -/
theorem listReset_success {w : D3DWorld} {i a : Nat} {l : ListState}
    (hs : w.failSchedule = []) (hl : lookupA i w.lists = some l) (ho : l.isOpen = false)
    (ha : (lookupA a w.allocators).isSome = true) :
    w.listReset i a = (S_OK,
      { w with lists := setA i ⟨l.listType, a, true, []⟩ w.lists,
               trace := w.trace ++ [.listReset i a] }) := by
  unfold D3DWorld.listReset
  rw [popFail_nil hs]
  obtain ⟨al, hal⟩ := Option.isSome_iff_exists.mp ha
  simp [hl, hal, ho]

/-- On a healthy device, resetting a live allocator succeeds and reclaims
its backing storage. -/
theorem allocatorReset_success {w : D3DWorld} {a : Nat} {al : AllocatorState}
    (hs : w.failSchedule = []) (ha : lookupA a w.allocators = some al) :
    w.allocatorReset a = (S_OK,
      { w with allocators := setA a ⟨al.listType, []⟩ w.allocators,
               trace := w.trace ++ [.allocatorReset a] }) := by
  unfold D3DWorld.allocatorReset
  rw [popFail_nil hs]
  simp [ha]

/-- A close that returns normally returned the world of the native Close. -/
theorem close_ok_inv {debug : Bool} {cl : GrD3DCommandList} {w w' : D3DWorld}
    (h : cl.close debug w = .ok w') : w' = (w.listClose cl.fCommandList).2 := by
  replace h : skAssertThen debug (SUCCEEDED (w.listClose cl.fCommandList).1)
      (w.listClose cl.fCommandList).2 = .ok w' := h
  unfold skAssertThen at h
  split at h
  · exact Outcome.noConfusion h
  · injection h with h1
    exact h1.symm

/-- A submit that returns normally returned the world of the native list
Reset performed after the queue hand-off. -/
theorem submit_ok_inv {debug : Bool} {cl : GrD3DCommandList} {q : Nat} {w w' : D3DWorld}
    (h : cl.submit debug q w = .ok w') :
    w' = ((w.executeCommandLists q [cl.fCommandList]).listReset cl.fCommandList
            cl.fAllocator).2 := by
  replace h : skAssertThen debug
      (SUCCEEDED ((w.executeCommandLists q [cl.fCommandList]).listReset cl.fCommandList
        cl.fAllocator).1)
      ((w.executeCommandLists q [cl.fCommandList]).listReset cl.fCommandList
        cl.fAllocator).2 = .ok w' := h
  unfold skAssertThen at h
  split at h
  · exact Outcome.noConfusion h
  · injection h with h1
    exact h1.symm

/-- A reset that returns normally returned the world of the native
allocator Reset. -/
theorem reset_ok_inv {debug : Bool} {cl : GrD3DCommandList} {w w' : D3DWorld}
    (h : cl.reset debug w = .ok w') : w' = (w.allocatorReset cl.fAllocator).2 := by
  replace h : skAssertThen debug (SUCCEEDED (w.allocatorReset cl.fAllocator).1)
      (w.allocatorReset cl.fAllocator).2 = .ok w' := h
  unfold skAssertThen at h
  split at h
  · exact Outcome.noConfusion h
  · injection h with h1
    exact h1.symm

/-- On a healthy device, close on a wrapper whose list is live and open
returns normally (any build) and closes the list. -/
theorem close_success_eq {debug : Bool} {cl : GrD3DCommandList} {w : D3DWorld}
    {l : ListState} (hs : w.failSchedule = [])
    (hl : lookupA cl.fCommandList w.lists = some l) (ho : l.isOpen = true) :
    cl.close debug w = .ok
      { w with lists := setA cl.fCommandList { l with isOpen := false } w.lists,
               trace := w.trace ++ [.close cl.fCommandList] } := by
  show skAssertThen debug (SUCCEEDED (w.listClose cl.fCommandList).1)
      (w.listClose cl.fCommandList).2 = _
  rw [listClose_success hs hl ho]
  simp [skAssertThen, SUCCEEDED, S_OK]

/-- On a healthy device, submit on a wrapper whose list is live and closed
and whose allocator is live returns normally (any build): the queue gets
the single-element batch, then the list is re-opened onto fAllocator. -/
theorem submit_success_eq {debug : Bool} {cl : GrD3DCommandList} {q : Nat}
    {w : D3DWorld} {l : ListState} (hs : w.failSchedule = [])
    (hl : lookupA cl.fCommandList w.lists = some l) (ho : l.isOpen = false)
    (ha : (lookupA cl.fAllocator w.allocators).isSome = true) :
    cl.submit debug q w = .ok
      { w with
          lists := setA cl.fCommandList ⟨l.listType, cl.fAllocator, true, []⟩ w.lists,
          queues := insertA q ((lookupA q w.queues).getD [] ++ [[cl.fCommandList]])
                      w.queues,
          trace := w.trace ++ [.executeCommandLists q [cl.fCommandList],
                               .listReset cl.fCommandList cl.fAllocator] } := by
  show skAssertThen debug
      (SUCCEEDED ((w.executeCommandLists q [cl.fCommandList]).listReset cl.fCommandList
        cl.fAllocator).1)
      ((w.executeCommandLists q [cl.fCommandList]).listReset cl.fCommandList
        cl.fAllocator).2 = _
  rw [listReset_success (w := w.executeCommandLists q [cl.fCommandList]) hs hl ho ha]
  simp [skAssertThen, SUCCEEDED, S_OK, D3DWorld.executeCommandLists]

/-- On a healthy device, reset on a wrapper whose allocator is live returns
normally (any build) and reclaims the allocator's backing storage. -/
theorem reset_success_eq {debug : Bool} {cl : GrD3DCommandList} {w : D3DWorld}
    {al : AllocatorState} (hs : w.failSchedule = [])
    (ha : lookupA cl.fAllocator w.allocators = some al) :
    cl.reset debug w = .ok
      { w with allocators := setA cl.fAllocator ⟨al.listType, []⟩ w.allocators,
               trace := w.trace ++ [.allocatorReset cl.fAllocator] } := by
  show skAssertThen debug (SUCCEEDED (w.allocatorReset cl.fAllocator).1)
      (w.allocatorReset cl.fAllocator).2 = _
  rw [allocatorReset_success hs ha]
  simp [skAssertThen, SUCCEEDED, S_OK]

/-- On a healthy device, allocator creation hands out the fresh handle
nextId + 1. -/
theorem createCommandAllocator_success {w : D3DWorld} (ty : D3D12_COMMAND_LIST_TYPE)
    (hs : w.failSchedule = []) :
    w.createCommandAllocator ty = (S_OK, w.nextId + 1,
      { w with allocators := w.allocators ++ [(w.nextId + 1, ⟨ty, []⟩)],
               nextId := w.nextId + 1,
               trace := w.trace ++ [.createCommandAllocator ty (w.nextId + 1)] }) := by
  unfold D3DWorld.createCommandAllocator
  rw [popFail_nil hs]
  rfl

/-- On a healthy device, list creation against a live allocator hands out
the fresh handle nextId + 1, open and paired with that allocator. -/
theorem createCommandList_success {w : D3DWorld} (ty : D3D12_COMMAND_LIST_TYPE)
    {a : Nat} (hs : w.failSchedule = [])
    (ha : (lookupA a w.allocators).isSome = true) :
    w.createCommandList ty a = (S_OK, w.nextId + 1,
      { w with lists := w.lists ++ [(w.nextId + 1, ⟨ty, a, true, []⟩)],
               nextId := w.nextId + 1,
               trace := w.trace ++ [.createCommandList ty a (w.nextId + 1)] }) := by
  unfold D3DWorld.createCommandList
  rw [popFail_nil hs]
  obtain ⟨al, hal⟩ := Option.isSome_iff_exists.mp ha
  simp [hal]

/-- A well-formed world has no allocator at the fresh handle nextId + 1. -/
theorem fresh_alloc_none {w : D3DWorld} (hwf : w.idsBelow = true) :
    lookupA (w.nextId + 1) w.allocators = none := by
  unfold D3DWorld.idsBelow at hwf
  rw [Bool.and_eq_true] at hwf
  exact lookupA_none_of_all_le hwf.1 (Nat.lt_succ_self _)

/-- A well-formed world has no list at the fresh handles nextId + 1 and
nextId + 2. -/
theorem fresh_list_none {w : D3DWorld} (hwf : w.idsBelow = true) :
    lookupA (w.nextId + 1) w.lists = none ∧ lookupA (w.nextId + 2) w.lists = none := by
  unfold D3DWorld.idsBelow at hwf
  rw [Bool.and_eq_true] at hwf
  exact ⟨lookupA_none_of_all_le hwf.2 (Nat.lt_succ_self _),
         lookupA_none_of_all_le hwf.2 (Nat.lt_of_lt_of_le (Nat.lt_succ_self _) (Nat.le_succ _))⟩

/-- Full computation of the Direct factory on a healthy well-formed world. -/
theorem directMake_eq (debug : Bool) (w : D3DWorld) (hs : w.failSchedule = [])
    (hwf : w.idsBelow = true) :
    GrD3DDirectCommandList.Make debug w = .ok (some ⟨w.nextId + 1, w.nextId + 2⟩,
      { w with allocators := w.allocators ++ [(w.nextId + 1, ⟨.DIRECT, []⟩)],
               lists := w.lists ++ [(w.nextId + 2, ⟨.DIRECT, w.nextId + 1, true, []⟩)],
               nextId := w.nextId + 2,
               trace := w.trace ++
                 [.createCommandAllocator .DIRECT (w.nextId + 1),
                  .createCommandList .DIRECT (w.nextId + 1) (w.nextId + 2)] }) := by
  unfold GrD3DDirectCommandList.Make
  simp only [createCommandAllocator_success .DIRECT hs]
  have ha : (lookupA (w.nextId + 1)
      (w.allocators ++ [(w.nextId + 1, (⟨.DIRECT, []⟩ : AllocatorState))])).isSome
      = true := by
    rw [lookupA_append_right _ (fresh_alloc_none hwf)]
    simp [lookupA]
  simp only [createCommandList_success (w := { w with
        allocators := w.allocators ++ [(w.nextId + 1, ⟨.DIRECT, []⟩)],
        nextId := w.nextId + 1,
        trace := w.trace ++ [.createCommandAllocator .DIRECT (w.nextId + 1)] })
      .DIRECT hs ha]
  simp [SUCCEEDED, S_OK, skAssertThen]

/-- Full computation of the Copy factory on a healthy well-formed world:
identical to the Direct factory except for the type of the created list. -/
theorem copyMake_eq (debug : Bool) (w : D3DWorld) (hs : w.failSchedule = [])
    (hwf : w.idsBelow = true) :
    GrD3DCopyCommandList.Make debug w = .ok (some ⟨w.nextId + 1, w.nextId + 2⟩,
      { w with allocators := w.allocators ++ [(w.nextId + 1, ⟨.DIRECT, []⟩)],
               lists := w.lists ++ [(w.nextId + 2, ⟨.COPY, w.nextId + 1, true, []⟩)],
               nextId := w.nextId + 2,
               trace := w.trace ++
                 [.createCommandAllocator .DIRECT (w.nextId + 1),
                  .createCommandList .COPY (w.nextId + 1) (w.nextId + 2)] }) := by
  unfold GrD3DCopyCommandList.Make
  simp only [createCommandAllocator_success .DIRECT hs]
  have ha : (lookupA (w.nextId + 1)
      (w.allocators ++ [(w.nextId + 1, (⟨.DIRECT, []⟩ : AllocatorState))])).isSome
      = true := by
    rw [lookupA_append_right _ (fresh_alloc_none hwf)]
    simp [lookupA]
  simp only [createCommandList_success (w := { w with
        allocators := w.allocators ++ [(w.nextId + 1, ⟨.DIRECT, []⟩)],
        nextId := w.nextId + 1,
        trace := w.trace ++ [.createCommandAllocator .DIRECT (w.nextId + 1)] })
      .COPY hs ha]
  simp [SUCCEEDED, S_OK, skAssertThen]

/-- C1: counterexample.  closedWorld holds the wrapper pairing allocator 1
with list 2 in the Closed state; the allocator's backing storage holds
command 5.  submit(7) succeeds and hands batch [2] to queue 7, yet the
backing allocator is NOT reset: its storage still holds command 5 after
submit, while the allocator-reset step performed by reset() leaves it
empty.  submit resets the command list, not the backing allocator. -/
theorem C1_counterexample :
    (GrD3DCommandList.submit true ⟨1, 2⟩ 7 closedWorld).isOk = true ∧
    ((GrD3DCommandList.submit true ⟨1, 2⟩ 7 closedWorld).getD closedWorld).allocStorage 1
      = [5] ∧
    ((GrD3DCommandList.reset true ⟨1, 2⟩ closedWorld).getD closedWorld).allocStorage 1
      = [] ∧
    ((GrD3DCommandList.submit true ⟨1, 2⟩ 7 closedWorld).getD closedWorld).allocStorage 1
      ≠ ((GrD3DCommandList.reset true ⟨1, 2⟩ closedWorld).getD closedWorld).allocStorage 1
      := by
  decide

/-- C1 (amended): for every wrapper in the Closed state (live paired
handles, healthy device), submit(queue) hands the closed command list to
the queue for asynchronous execution and then immediately resets the
command list — re-opening it, cleared, bound to the backing allocator
stored at construction — so the same wrapper can be reused for the next
recording pass; the backing allocator itself is left untouched (only
reset() resets it). -/
theorem C1_submit_handoff_then_list_reset (debug : Bool) (cl : GrD3DCommandList)
    (q : Nat) (w : D3DWorld) (l : ListState) (hs : w.failSchedule = [])
    (hl : lookupA cl.fCommandList w.lists = some l) (ho : l.isOpen = false)
    (ha : (lookupA cl.fAllocator w.allocators).isSome = true) :
    (cl.submit debug q w).isOk = true ∧
    ((cl.submit debug q w).getD w).queueBatches q
      = w.queueBatches q ++ [[cl.fCommandList]] ∧
    lookupA cl.fCommandList ((cl.submit debug q w).getD w).lists
      = some ⟨l.listType, cl.fAllocator, true, []⟩ ∧
    ((cl.submit debug q w).getD w).allocators = w.allocators := by
  rw [submit_success_eq hs hl ho ha]
  refine ⟨rfl, ?_, ?_, rfl⟩
  · unfold D3DWorld.queueBatches Outcome.getD
    rw [lookupA_insertA_self]
    rfl
  · exact lookupA_setA_self _ hl

/-- C1 witness: the amended theorem applied to the concrete Closed wrapper
of closedWorld. -/
theorem C1_witness :
    (GrD3DCommandList.submit true ⟨1, 2⟩ 7 closedWorld).isOk = true ∧
    ((GrD3DCommandList.submit true ⟨1, 2⟩ 7 closedWorld).getD closedWorld).queueBatches 7
      = closedWorld.queueBatches 7 ++ [[2]] ∧
    lookupA 2 ((GrD3DCommandList.submit true ⟨1, 2⟩ 7 closedWorld).getD closedWorld).lists
      = some ⟨.DIRECT, 1, true, []⟩ ∧
    ((GrD3DCommandList.submit true ⟨1, 2⟩ 7 closedWorld).getD closedWorld).allocators
      = closedWorld.allocators :=
  C1_submit_handoff_then_list_reset true ⟨1, 2⟩ 7 closedWorld ⟨.DIRECT, 1, false, [5]⟩
    rfl (by decide) (by decide) (by decide)

/-- C2: whenever submit returns normally, the wrapper has passed exactly
one command list — its own — to the queue as one single-element batch, and
the hand-off to the queue happened before the reset step: the appended
trace starts with the queue hand-off event, followed at most by the
list-reset event. -/
theorem C2_single_element_batch_handoff_before_reset (debug : Bool)
    (cl : GrD3DCommandList) (q : Nat) (w w' : D3DWorld)
    (h : cl.submit debug q w = .ok w') :
    w'.queueBatches q = w.queueBatches q ++ [[cl.fCommandList]] ∧
    (w'.trace = w.trace ++ [.executeCommandLists q [cl.fCommandList]] ∨
     w'.trace = w.trace ++ [.executeCommandLists q [cl.fCommandList],
                            .listReset cl.fCommandList cl.fAllocator]) := by
  have hw' := submit_ok_inv h
  rcases listReset_cases (w.executeCommandLists q [cl.fCommandList]) cl.fCommandList
      cl.fAllocator with ⟨_, _, _, hq, _, ht⟩ | ⟨l, _, _, _, _, _, _, hq, _, ht⟩
  · constructor
    · unfold D3DWorld.queueBatches
      rw [hw', hq]
      show (lookupA q (insertA q ((lookupA q w.queues).getD [] ++ [[cl.fCommandList]])
        w.queues)).getD [] = _
      rw [lookupA_insertA_self]
      rfl
    · left
      rw [hw', ht]
      rfl
  · constructor
    · unfold D3DWorld.queueBatches
      rw [hw', hq]
      show (lookupA q (insertA q ((lookupA q w.queues).getD [] ++ [[cl.fCommandList]])
        w.queues)).getD [] = _
      rw [lookupA_insertA_self]
      rfl
    · right
      rw [hw', ht]
      show (w.trace ++ [.executeCommandLists q [cl.fCommandList]]) ++
        [.listReset cl.fCommandList cl.fAllocator] = _
      simp

/-- C2 witness: submitting the Closed wrapper of closedWorld hands queue 7
the single-element batch [2] before the list-reset step. -/
theorem C2_witness :
    D3DWorld.queueBatches
        ⟨[(1, ⟨.DIRECT, [5]⟩)], [(2, ⟨.DIRECT, 1, true, []⟩)], [(7, [[2]])], 2, [],
         [.executeCommandLists 7 [2], .listReset 2 1]⟩ 7
      = closedWorld.queueBatches 7 ++ [[2]] ∧
    (D3DWorld.trace
        ⟨[(1, ⟨.DIRECT, [5]⟩)], [(2, ⟨.DIRECT, 1, true, []⟩)], [(7, [[2]])], 2, [],
         [.executeCommandLists 7 [2], .listReset 2 1]⟩
       = closedWorld.trace ++ [.executeCommandLists 7 [2]] ∨
     D3DWorld.trace
        ⟨[(1, ⟨.DIRECT, [5]⟩)], [(2, ⟨.DIRECT, 1, true, []⟩)], [(7, [[2]])], 2, [],
         [.executeCommandLists 7 [2], .listReset 2 1]⟩
       = closedWorld.trace ++ [.executeCommandLists 7 [2], .listReset 2 1]) :=
  C2_single_element_batch_handoff_before_reset true ⟨1, 2⟩ 7 closedWorld
    ⟨[(1, ⟨.DIRECT, [5]⟩)], [(2, ⟨.DIRECT, 1, true, []⟩)], [(7, [[2]])], 2, [],
     [.executeCommandLists 7 [2], .listReset 2 1]⟩ (by decide)

/-- C6: for every wrapper satisfying submit's precondition (Closed state,
live paired handles, healthy device), submit returns normally and the
wrapper is immediately back in the Recording state — the underlying list
is open for appending new commands — with no explicit reset() required. -/
theorem C6_submit_reenters_recording (debug : Bool) (cl : GrD3DCommandList)
    (q : Nat) (w : D3DWorld) (l : ListState) (hs : w.failSchedule = [])
    (hl : lookupA cl.fCommandList w.lists = some l) (ho : l.isOpen = false)
    (ha : (lookupA cl.fAllocator w.allocators).isSome = true) :
    (cl.submit debug q w).isOk = true ∧
    ((cl.submit debug q w).getD w).listOpen cl.fCommandList = true := by
  rw [submit_success_eq hs hl ho ha]
  refine ⟨rfl, ?_⟩
  unfold D3DWorld.listOpen Outcome.getD
  rw [lookupA_setA_self _ hl]

/-- C6 witness: the Closed wrapper of closedWorld is back in Recording
right after submit. -/
theorem C6_witness :
    (GrD3DCommandList.submit true ⟨1, 2⟩ 7 closedWorld).isOk = true ∧
    ((GrD3DCommandList.submit true ⟨1, 2⟩ 7 closedWorld).getD closedWorld).listOpen 2
      = true :=
  C6_submit_reenters_recording true ⟨1, 2⟩ 7 closedWorld ⟨.DIRECT, 1, false, [5]⟩
    rfl (by decide) (by decide) (by decide)

/-- C7: counterexample.  The Direct factory on emptyWorld yields the
wrapper pairing allocator 1 with open list 2 (world madeWorld).  Close it
— the wrapper is now Closed and was never submitted — then call reset().
reset() succeeds but only resets the allocator: the list stays closed, so
this never-submitted wrapper is NOT returned to the Recording state and is
not equivalent to a freshly constructed wrapper (whose list is open). -/
theorem C7_counterexample :
    GrD3DDirectCommandList.Make true emptyWorld = .ok (some ⟨1, 2⟩, madeWorld) ∧
    madeWorld.listOpen 2 = true ∧
    (runOps true ⟨1, 2⟩ [.close, .reset] madeWorld).isOk = true ∧
    ((runOps true ⟨1, 2⟩ [.close, .reset] madeWorld).getD madeWorld).listOpen 2
      = false := by
  decide

/-- C7 (amended): reset() resets only the backing allocator.  On a wrapper
still in the Recording state with nothing recorded (never closed or
submitted: its list is live and open, its allocator live with empty
backing storage, healthy device), reset() raises no fatal assertion and
acts as a no-op refresh: the allocator entry, the native lists and the
queues are unchanged and the wrapper stays in the Recording state — the
state of a freshly constructed wrapper, except for allocator identity. -/
theorem C7_reset_noop_from_recording (debug : Bool) (cl : GrD3DCommandList)
    (w : D3DWorld) (l : ListState) (al : AllocatorState)
    (hs : w.failSchedule = []) (hl : lookupA cl.fCommandList w.lists = some l)
    (ho : l.isOpen = true) (ha : lookupA cl.fAllocator w.allocators = some al)
    (hst : al.storage = []) :
    (cl.reset debug w).isOk = true ∧
    lookupA cl.fAllocator ((cl.reset debug w).getD w).allocators = some al ∧
    ((cl.reset debug w).getD w).lists = w.lists ∧
    ((cl.reset debug w).getD w).queues = w.queues ∧
    ((cl.reset debug w).getD w).listOpen cl.fCommandList = true := by
  rw [reset_success_eq hs ha]
  refine ⟨rfl, ?_, rfl, rfl, ?_⟩
  · unfold Outcome.getD
    rw [lookupA_setA_self _ ha, ← hst]
  · unfold D3DWorld.listOpen Outcome.getD
    rw [hl]
    exact ho

/-- C7 witness: the amended theorem applied to the freshly made wrapper of
madeWorld. -/
theorem C7_witness :
    (GrD3DCommandList.reset true ⟨1, 2⟩ madeWorld).isOk = true ∧
    lookupA 1 ((GrD3DCommandList.reset true ⟨1, 2⟩ madeWorld).getD madeWorld).allocators
      = some ⟨.DIRECT, []⟩ ∧
    ((GrD3DCommandList.reset true ⟨1, 2⟩ madeWorld).getD madeWorld).lists
      = madeWorld.lists ∧
    ((GrD3DCommandList.reset true ⟨1, 2⟩ madeWorld).getD madeWorld).queues
      = madeWorld.queues ∧
    ((GrD3DCommandList.reset true ⟨1, 2⟩ madeWorld).getD madeWorld).listOpen 2 = true :=
  C7_reset_noop_from_recording true ⟨1, 2⟩ madeWorld ⟨.DIRECT, 1, true, []⟩
    ⟨.DIRECT, []⟩ rfl (by decide) (by decide) (by decide) (by decide)

/-- C3: in a build with assertions compiled in (debug), every native-call
failure — at allocator creation, list creation, close, the reset step of
submit, and allocator reset — is escalated to a fatal assertion that stops
execution (Outcome.fatal); no failure is recovered locally or surfaced to
the caller as an error value. -/
theorem C3_native_failure_is_fatal (w : D3DWorld) (cl : GrD3DCommandList) (q : Nat) :
    (SUCCEEDED (w.listClose cl.fCommandList).1 = false →
      cl.close true w = .fatal) ∧
    (SUCCEEDED ((w.executeCommandLists q [cl.fCommandList]).listReset cl.fCommandList
        cl.fAllocator).1 = false →
      cl.submit true q w = .fatal) ∧
    (SUCCEEDED (w.allocatorReset cl.fAllocator).1 = false →
      cl.reset true w = .fatal) ∧
    (SUCCEEDED (w.createCommandAllocator .DIRECT).1 = false →
      GrD3DDirectCommandList.Make true w = .fatal ∧
      GrD3DCopyCommandList.Make true w = .fatal) ∧
    (SUCCEEDED ((w.createCommandAllocator .DIRECT).2.2.createCommandList .DIRECT
        (w.createCommandAllocator .DIRECT).2.1).1 = false →
      GrD3DDirectCommandList.Make true w = .fatal) ∧
    (SUCCEEDED ((w.createCommandAllocator .DIRECT).2.2.createCommandList .COPY
        (w.createCommandAllocator .DIRECT).2.1).1 = false →
      GrD3DCopyCommandList.Make true w = .fatal) := by
  refine ⟨?_, ?_, ?_, ?_, ?_, ?_⟩
  · intro h
    show skAssertThen true (SUCCEEDED (w.listClose cl.fCommandList).1)
      (w.listClose cl.fCommandList).2 = .fatal
    rw [h]
    rfl
  · intro h
    show skAssertThen true
      (SUCCEEDED ((w.executeCommandLists q [cl.fCommandList]).listReset cl.fCommandList
        cl.fAllocator).1)
      ((w.executeCommandLists q [cl.fCommandList]).listReset cl.fCommandList
        cl.fAllocator).2 = .fatal
    rw [h]
    rfl
  · intro h
    show skAssertThen true (SUCCEEDED (w.allocatorReset cl.fAllocator).1)
      (w.allocatorReset cl.fAllocator).2 = .fatal
    rw [h]
    rfl
  · intro h
    rcases hc : w.createCommandAllocator .DIRECT with ⟨hr1, a1, w1⟩
    rw [hc] at h
    replace h : SUCCEEDED hr1 = false := h
    constructor
    · unfold GrD3DDirectCommandList.Make
      simp only [hc]
      simp [h]
    · unfold GrD3DCopyCommandList.Make
      simp only [hc]
      simp [h]
  · intro h
    rcases hc : w.createCommandAllocator .DIRECT with ⟨hr1, a1, w1⟩
    rw [hc] at h
    replace h : SUCCEEDED (w1.createCommandList .DIRECT a1).1 = false := h
    rcases hc2 : w1.createCommandList .DIRECT a1 with ⟨hr2, l2, w2⟩
    rw [hc2] at h
    replace h : SUCCEEDED hr2 = false := h
    unfold GrD3DDirectCommandList.Make
    simp only [hc, hc2]
    by_cases h1 : SUCCEEDED hr1 = true
    · simp [h1, h]
    · have h1f : SUCCEEDED hr1 = false := by
        rwa [Bool.not_eq_true] at h1
      simp [h1f]
  · intro h
    rcases hc : w.createCommandAllocator .DIRECT with ⟨hr1, a1, w1⟩
    rw [hc] at h
    replace h : SUCCEEDED (w1.createCommandList .COPY a1).1 = false := h
    rcases hc2 : w1.createCommandList .COPY a1 with ⟨hr2, l2, w2⟩
    rw [hc2] at h
    replace h : SUCCEEDED hr2 = false := h
    unfold GrD3DCopyCommandList.Make
    simp only [hc, hc2]
    by_cases h1 : SUCCEEDED hr1 = true
    · simp [h1, h]
    · have h1f : SUCCEEDED hr1 = false := by
        rwa [Bool.not_eq_true] at h1
      simp [h1f]

/-- C3 witness: with failure injected at each site in a debug build, every
operation aborts on the fatal assertion. -/
theorem C3_witness :
    GrD3DCommandList.close true ⟨1, 2⟩ lostWorld = .fatal ∧
    GrD3DCommandList.submit true ⟨1, 2⟩ 7 lostWorld = .fatal ∧
    GrD3DCommandList.reset true ⟨1, 2⟩ lostWorld = .fatal ∧
    GrD3DDirectCommandList.Make true lostWorld = .fatal ∧
    GrD3DCopyCommandList.Make true lostWorld = .fatal ∧
    GrD3DDirectCommandList.Make true listFailWorld = .fatal ∧
    GrD3DCopyCommandList.Make true listFailWorld = .fatal :=
  ⟨(C3_native_failure_is_fatal lostWorld ⟨1, 2⟩ 7).1 (by decide),
   (C3_native_failure_is_fatal lostWorld ⟨1, 2⟩ 7).2.1 (by decide),
   (C3_native_failure_is_fatal lostWorld ⟨1, 2⟩ 7).2.2.1 (by decide),
   ((C3_native_failure_is_fatal lostWorld ⟨1, 2⟩ 7).2.2.2.1 (by decide)).1,
   ((C3_native_failure_is_fatal lostWorld ⟨1, 2⟩ 7).2.2.2.1 (by decide)).2,
   (C3_native_failure_is_fatal listFailWorld ⟨1, 2⟩ 7).2.2.2.2.1 (by decide),
   (C3_native_failure_is_fatal listFailWorld ⟨1, 2⟩ 7).2.2.2.2.2 (by decide)⟩

/-- C4: on any device state (healthy, well-formed), the Direct factory
allocates a command allocator and a command list both typed DIRECT
(general graphics engine work), pairs the list with that allocator, and
returns an exclusively-owned wrapper holding exactly those two native
objects: both handles are fresh (owned by no one before the call) and
distinct. -/
theorem C4_direct_make_general_pair (debug : Bool) (w : D3DWorld)
    (hs : w.failSchedule = []) (hwf : w.idsBelow = true) :
    (GrD3DDirectCommandList.Make debug w).isOk = true ∧
    ((GrD3DDirectCommandList.Make debug w).getD (none, w)).1
      = some ⟨w.nextId + 1, w.nextId + 2⟩ ∧
    lookupA (w.nextId + 1)
        ((GrD3DDirectCommandList.Make debug w).getD (none, w)).2.allocators
      = some ⟨.DIRECT, []⟩ ∧
    lookupA (w.nextId + 2)
        ((GrD3DDirectCommandList.Make debug w).getD (none, w)).2.lists
      = some ⟨.DIRECT, w.nextId + 1, true, []⟩ ∧
    lookupA (w.nextId + 1) w.allocators = none ∧
    lookupA (w.nextId + 2) w.lists = none ∧
    w.nextId + 1 ≠ w.nextId + 2 := by
  rw [directMake_eq debug w hs hwf]
  refine ⟨rfl, rfl, ?_, ?_, fresh_alloc_none hwf, (fresh_list_none hwf).2, by omega⟩
  · unfold Outcome.getD
    rw [lookupA_append_right _ (fresh_alloc_none hwf)]
    simp [lookupA]
  · unfold Outcome.getD
    rw [lookupA_append_right _ (fresh_list_none hwf).2]
    simp [lookupA]

/-- C4 witness: the Direct factory on emptyWorld yields the fresh wrapper
pairing allocator 1 with direct-typed open list 2. -/
theorem C4_witness :
    (GrD3DDirectCommandList.Make true emptyWorld).isOk = true ∧
    ((GrD3DDirectCommandList.Make true emptyWorld).getD (none, emptyWorld)).1
      = some ⟨1, 2⟩ ∧
    lookupA 1 ((GrD3DDirectCommandList.Make true emptyWorld).getD
        (none, emptyWorld)).2.allocators = some ⟨.DIRECT, []⟩ ∧
    lookupA 2 ((GrD3DDirectCommandList.Make true emptyWorld).getD
        (none, emptyWorld)).2.lists = some ⟨.DIRECT, 1, true, []⟩ ∧
    lookupA 1 emptyWorld.allocators = none ∧
    lookupA 2 emptyWorld.lists = none ∧
    (1 : Nat) + 0 ≠ 2 :=
  C4_direct_make_general_pair true emptyWorld rfl (by decide)

/-- C5: on any device state (healthy, well-formed), the Copy factory
requests a COPY-typed native command list while still allocating the
allocator with the general DIRECT kind; compared with the Direct factory
on the same device state, the returned wrapper, the allocator, the queue
state and the handle counter are identical — only the created list's type
differs. -/
theorem C5_copy_make_direct_allocator (debug : Bool) (w : D3DWorld)
    (hs : w.failSchedule = []) (hwf : w.idsBelow = true) :
    (GrD3DCopyCommandList.Make debug w).isOk = true ∧
    ((GrD3DCopyCommandList.Make debug w).getD (none, w)).1
      = some ⟨w.nextId + 1, w.nextId + 2⟩ ∧
    lookupA (w.nextId + 1)
        ((GrD3DCopyCommandList.Make debug w).getD (none, w)).2.allocators
      = some ⟨.DIRECT, []⟩ ∧
    lookupA (w.nextId + 2)
        ((GrD3DCopyCommandList.Make debug w).getD (none, w)).2.lists
      = some ⟨.COPY, w.nextId + 1, true, []⟩ ∧
    ((GrD3DDirectCommandList.Make debug w).getD (none, w)).1
      = ((GrD3DCopyCommandList.Make debug w).getD (none, w)).1 ∧
    ((GrD3DDirectCommandList.Make debug w).getD (none, w)).2.allocators
      = ((GrD3DCopyCommandList.Make debug w).getD (none, w)).2.allocators ∧
    ((GrD3DDirectCommandList.Make debug w).getD (none, w)).2.queues
      = ((GrD3DCopyCommandList.Make debug w).getD (none, w)).2.queues ∧
    ((GrD3DDirectCommandList.Make debug w).getD (none, w)).2.nextId
      = ((GrD3DCopyCommandList.Make debug w).getD (none, w)).2.nextId ∧
    ((GrD3DCopyCommandList.Make debug w).getD (none, w)).2.lists
      = w.lists ++ [(w.nextId + 2, ⟨.COPY, w.nextId + 1, true, []⟩)] ∧
    ((GrD3DDirectCommandList.Make debug w).getD (none, w)).2.lists
      = w.lists ++ [(w.nextId + 2, ⟨.DIRECT, w.nextId + 1, true, []⟩)] := by
  rw [copyMake_eq debug w hs hwf, directMake_eq debug w hs hwf]
  refine ⟨rfl, rfl, ?_, ?_, rfl, rfl, rfl, rfl, rfl, rfl⟩
  · unfold Outcome.getD
    rw [lookupA_append_right _ (fresh_alloc_none hwf)]
    simp [lookupA]
  · unfold Outcome.getD
    rw [lookupA_append_right _ (fresh_list_none hwf).2]
    simp [lookupA]

/-- C5 witness: the Copy factory on emptyWorld yields a DIRECT-kind
allocator 1 and a COPY-typed list 2, matching the Direct factory in
everything but the list's type. -/
theorem C5_witness :
    (GrD3DCopyCommandList.Make true emptyWorld).isOk = true ∧
    ((GrD3DCopyCommandList.Make true emptyWorld).getD (none, emptyWorld)).1
      = some ⟨1, 2⟩ ∧
    lookupA 1 ((GrD3DCopyCommandList.Make true emptyWorld).getD
        (none, emptyWorld)).2.allocators = some ⟨.DIRECT, []⟩ ∧
    lookupA 2 ((GrD3DCopyCommandList.Make true emptyWorld).getD
        (none, emptyWorld)).2.lists = some ⟨.COPY, 1, true, []⟩ ∧
    ((GrD3DDirectCommandList.Make true emptyWorld).getD (none, emptyWorld)).1
      = ((GrD3DCopyCommandList.Make true emptyWorld).getD (none, emptyWorld)).1 ∧
    ((GrD3DDirectCommandList.Make true emptyWorld).getD (none, emptyWorld)).2.allocators
      = ((GrD3DCopyCommandList.Make true emptyWorld).getD (none, emptyWorld)).2.allocators ∧
    ((GrD3DDirectCommandList.Make true emptyWorld).getD (none, emptyWorld)).2.queues
      = ((GrD3DCopyCommandList.Make true emptyWorld).getD (none, emptyWorld)).2.queues ∧
    ((GrD3DDirectCommandList.Make true emptyWorld).getD (none, emptyWorld)).2.nextId
      = ((GrD3DCopyCommandList.Make true emptyWorld).getD (none, emptyWorld)).2.nextId ∧
    ((GrD3DCopyCommandList.Make true emptyWorld).getD (none, emptyWorld)).2.lists
      = emptyWorld.lists ++ [(2, ⟨.COPY, 1, true, []⟩)] ∧
    ((GrD3DDirectCommandList.Make true emptyWorld).getD (none, emptyWorld)).2.lists
      = emptyWorld.lists ++ [(2, ⟨.DIRECT, 1, true, []⟩)] :=
  C5_copy_make_direct_allocator true emptyWorld rfl (by decide)

/-- Effect of one wrapper operation on the pairing: the wrapper's list is
either untouched or re-bound to the wrapper's own stored allocator, and no
other list or allocator entry is touched. -/
theorem runOp_effects (debug : Bool) (cl : GrD3DCommandList) (op : WrapperOp)
    (w w' : D3DWorld) (h : runOp debug cl op w = .ok w') :
    (w'.listBoundAllocator cl.fCommandList = w.listBoundAllocator cl.fCommandList ∨
     w'.listBoundAllocator cl.fCommandList = some cl.fAllocator) ∧
    (∀ j, j ≠ cl.fCommandList → lookupA j w'.lists = lookupA j w.lists) ∧
    (∀ j, j ≠ cl.fAllocator → lookupA j w'.allocators = lookupA j w.allocators) := by
  cases op with
  | close =>
    have hw' : w' = (w.listClose cl.fCommandList).2 := close_ok_inv h
    subst hw'
    rcases listClose_cases w cl.fCommandList with ⟨_, ha, hl, _, _, _⟩ |
      ⟨l, hlk, ho, _, ha, hl, _, _, _⟩
    · exact ⟨Or.inl (by unfold D3DWorld.listBoundAllocator; rw [hl]),
             fun j _ => by rw [hl], fun j _ => by rw [ha]⟩
    · refine ⟨Or.inl ?_, fun j hj => ?_, fun j _ => by rw [ha]⟩
      · unfold D3DWorld.listBoundAllocator
        rw [hl, lookupA_setA_self _ hlk, hlk]
        rfl
      · rw [hl, lookupA_setA_ne _ hj]
  | submit q =>
    have hw' : w' = ((w.executeCommandLists q [cl.fCommandList]).listReset
      cl.fCommandList cl.fAllocator).2 := submit_ok_inv h
    subst hw'
    rcases listReset_cases (w.executeCommandLists q [cl.fCommandList]) cl.fCommandList
      cl.fAllocator with ⟨_, ha, hl, _, _, _⟩ | ⟨l, hlk, ho, _, _, ha, hl, _, _, _⟩
    · exact ⟨Or.inl (by unfold D3DWorld.listBoundAllocator; rw [hl]; rfl),
             fun j _ => by rw [hl]; rfl, fun j _ => by rw [ha]; rfl⟩
    · refine ⟨Or.inr ?_, fun j hj => ?_, fun j _ => by rw [ha]; rfl⟩
      · unfold D3DWorld.listBoundAllocator
        rw [hl, lookupA_setA_self _ hlk]
        rfl
      · rw [hl, lookupA_setA_ne _ hj]
        rfl
  | reset =>
    have hw' : w' = (w.allocatorReset cl.fAllocator).2 := reset_ok_inv h
    subst hw'
    rcases allocatorReset_cases w cl.fAllocator with ⟨_, ha, hl, _, _, _⟩ |
      ⟨al, hak, _, ha, hl, _, _, _⟩
    · exact ⟨Or.inl (by unfold D3DWorld.listBoundAllocator; rw [hl]),
             fun j _ => by rw [hl], fun j _ => by rw [ha]⟩
    · refine ⟨Or.inl (by unfold D3DWorld.listBoundAllocator; rw [hl]),
             fun j _ => by rw [hl], fun j hj => ?_⟩
      rw [ha, lookupA_setA_ne _ hj]

/-- Effect of a whole operation sequence: the pairing invariant is
preserved and no other list or allocator entry is touched. -/
theorem runOps_effects (debug : Bool) (cl : GrD3DCommandList) :
    ∀ (ops : List WrapperOp) (w w' : D3DWorld), runOps debug cl ops w = .ok w' →
    ((w.listBoundAllocator cl.fCommandList = some cl.fAllocator →
       w'.listBoundAllocator cl.fCommandList = some cl.fAllocator) ∧
     (∀ j, j ≠ cl.fCommandList → lookupA j w'.lists = lookupA j w.lists) ∧
     (∀ j, j ≠ cl.fAllocator → lookupA j w'.allocators = lookupA j w.allocators)) := by
  intro ops
  induction ops with
  | nil =>
    intro w w' h
    replace h : Outcome.ok w = .ok w' := h
    injection h with h1
    subst h1
    exact ⟨fun hp => hp, fun _ _ => rfl, fun _ _ => rfl⟩
  | cons op ops ih =>
    intro w w' h
    cases hop : runOp debug cl op w with
    | fatal =>
      replace h : (match runOp debug cl op w with
        | .fatal => Outcome.fatal
        | .ok w1 => runOps debug cl ops w1) = .ok w' := h
      rw [hop] at h
      exact Outcome.noConfusion h
    | ok w1 =>
      replace h : (match runOp debug cl op w with
        | .fatal => Outcome.fatal
        | .ok w1 => runOps debug cl ops w1) = .ok w' := h
      rw [hop] at h
      replace h : runOps debug cl ops w1 = .ok w' := h
      obtain ⟨hb1, hl1, ha1⟩ := runOp_effects debug cl op w w1 hop
      obtain ⟨hb2, hl2, ha2⟩ := ih w1 w' h
      refine ⟨?_, fun j hj => (hl2 j hj).trans (hl1 j hj),
              fun j hj => (ha2 j hj).trans (ha1 j hj)⟩
      intro hp
      rcases hb1 with hb1 | hb1
      · exact hb2 (hb1.trans hp)
      · exact hb2 hb1

/-- C8: over every sequence of close, submit and reset operations that
returns normally, the wrapper's command list stays paired with the
allocator stored at construction (submit re-binds it to that same
allocator), and no list or allocator other than the constructed pair is
ever acted on. -/
theorem C8_pairing_invariant (debug : Bool) (cl : GrD3DCommandList)
    (ops : List WrapperOp) (w w' : D3DWorld) (j k : Nat)
    (hrun : runOps debug cl ops w = .ok w')
    (hpair : w.listBoundAllocator cl.fCommandList = some cl.fAllocator)
    (hj : j ≠ cl.fCommandList) (hk : k ≠ cl.fAllocator) :
    w'.listBoundAllocator cl.fCommandList = some cl.fAllocator ∧
    lookupA j w'.lists = lookupA j w.lists ∧
    lookupA k w'.allocators = lookupA k w.allocators :=
  ⟨(runOps_effects debug cl ops w w' hrun).1 hpair,
   (runOps_effects debug cl ops w w' hrun).2.1 j hj,
   (runOps_effects debug cl ops w w' hrun).2.2 k hk⟩

/-- C8 witness: running close, submit(7), reset on the made wrapper keeps
list 2 bound to allocator 1 and leaves unrelated handles untouched. -/
theorem C8_witness :
    D3DWorld.listBoundAllocator
        ⟨[(1, ⟨.DIRECT, []⟩)], [(2, ⟨.DIRECT, 1, true, []⟩)], [(7, [[2]])], 2, [],
         [.createCommandAllocator .DIRECT 1, .createCommandList .DIRECT 1 2,
          .close 2, .executeCommandLists 7 [2], .listReset 2 1, .allocatorReset 1]⟩ 2
      = some 1 ∧
    lookupA 5
        (D3DWorld.lists
          ⟨[(1, ⟨.DIRECT, []⟩)], [(2, ⟨.DIRECT, 1, true, []⟩)], [(7, [[2]])], 2, [],
           [.createCommandAllocator .DIRECT 1, .createCommandList .DIRECT 1 2,
            .close 2, .executeCommandLists 7 [2], .listReset 2 1, .allocatorReset 1]⟩)
      = lookupA 5 madeWorld.lists ∧
    lookupA 6
        (D3DWorld.allocators
          ⟨[(1, ⟨.DIRECT, []⟩)], [(2, ⟨.DIRECT, 1, true, []⟩)], [(7, [[2]])], 2, [],
           [.createCommandAllocator .DIRECT 1, .createCommandList .DIRECT 1 2,
            .close 2, .executeCommandLists 7 [2], .listReset 2 1, .allocatorReset 1]⟩)
      = lookupA 6 madeWorld.allocators :=
  C8_pairing_invariant true ⟨1, 2⟩ [.close, .submit 7, .reset] madeWorld
    ⟨[(1, ⟨.DIRECT, []⟩)], [(2, ⟨.DIRECT, 1, true, []⟩)], [(7, [[2]])], 2, [],
     [.createCommandAllocator .DIRECT 1, .createCommandList .DIRECT 1 2,
      .close 2, .executeCommandLists 7 [2], .listReset 2 1, .allocatorReset 1]⟩
    5 6 (by decide) (by decide) (by decide) (by decide)

/-- C9: in a non-debug build, the success/failure status of the native
calls is never inspected: on every device state — including ones where the
native calls fail — close, submit, reset and both factories return
normally, and the assertion combinator with debug off returns normally
whatever its condition, so no fatal path exists outside debug builds. -/
theorem C9_release_never_fatal (w : D3DWorld) (cl : GrD3DCommandList) (q : Nat) :
    (cl.close false w).isOk = true ∧
    (cl.submit false q w).isOk = true ∧
    (cl.reset false w).isOk = true ∧
    (GrD3DDirectCommandList.Make false w).isOk = true ∧
    (GrD3DCopyCommandList.Make false w).isOk = true ∧
    (∀ cond : Bool, skAssertThen false cond w = .ok w) :=
  ⟨rfl, rfl, rfl, rfl, rfl, fun _ => rfl⟩

/-- C10: whenever a factory returns, it returns a non-null owning pointer
to a newly constructed wrapper — there is no path returning null or an
error value — and in a non-debug build both factories return on every
device state, even when the native creation calls report failure. -/
theorem C10_make_never_null (debug : Bool) (w wc v : D3DWorld)
    (r rc : Option GrD3DCommandList) (w' wc' : D3DWorld)
    (hd : GrD3DDirectCommandList.Make debug w = .ok (r, w'))
    (hc : GrD3DCopyCommandList.Make debug wc = .ok (rc, wc')) :
    r.isSome = true ∧ rc.isSome = true ∧
    (GrD3DDirectCommandList.Make false v).isOk = true ∧
    (GrD3DCopyCommandList.Make false v).isOk = true := by
  refine ⟨?_, ?_, rfl, rfl⟩
  · replace hd : (if debug && !(SUCCEEDED (w.createCommandAllocator .DIRECT).1)
        then Outcome.fatal
        else if debug && !(SUCCEEDED ((w.createCommandAllocator .DIRECT).2.2.createCommandList
            .DIRECT (w.createCommandAllocator .DIRECT).2.1).1) then Outcome.fatal
        else Outcome.ok (some ⟨(w.createCommandAllocator .DIRECT).2.1,
          ((w.createCommandAllocator .DIRECT).2.2.createCommandList .DIRECT
            (w.createCommandAllocator .DIRECT).2.1).2.1⟩,
          ((w.createCommandAllocator .DIRECT).2.2.createCommandList .DIRECT
            (w.createCommandAllocator .DIRECT).2.1).2.2)) = .ok (r, w') := hd
    split at hd
    · exact Outcome.noConfusion hd
    · split at hd
      · exact Outcome.noConfusion hd
      · injection hd with h1
        injection h1 with h2 h3
        rw [← h2]
        rfl
  · replace hc : (if debug && !(SUCCEEDED (wc.createCommandAllocator .DIRECT).1)
        then Outcome.fatal
        else if debug && !(SUCCEEDED ((wc.createCommandAllocator .DIRECT).2.2.createCommandList
            .COPY (wc.createCommandAllocator .DIRECT).2.1).1) then Outcome.fatal
        else Outcome.ok (some ⟨(wc.createCommandAllocator .DIRECT).2.1,
          ((wc.createCommandAllocator .DIRECT).2.2.createCommandList .COPY
            (wc.createCommandAllocator .DIRECT).2.1).2.1⟩,
          ((wc.createCommandAllocator .DIRECT).2.2.createCommandList .COPY
            (wc.createCommandAllocator .DIRECT).2.1).2.2)) = .ok (rc, wc') := hc
    split at hc
    · exact Outcome.noConfusion hc
    · split at hc
      · exact Outcome.noConfusion hc
      · injection hc with h1
        injection h1 with h2 h3
        rw [← h2]
        rfl

/-- C10 witness: in a release build with both creation calls failing, both
factories still return a non-null wrapper (holding null native handles,
exactly as the source constructs it). -/
theorem C10_witness :
    (some (⟨0, 0⟩ : GrD3DCommandList)).isSome = true ∧
    (some (⟨0, 0⟩ : GrD3DCommandList)).isSome = true ∧
    (GrD3DDirectCommandList.Make false emptyWorld).isOk = true ∧
    (GrD3DCopyCommandList.Make false emptyWorld).isOk = true :=
  C10_make_never_null false bothFailWorld bothFailWorld emptyWorld
    (some ⟨0, 0⟩) (some ⟨0, 0⟩) ⟨[], [], [], 0, [], []⟩ ⟨[], [], [], 0, [], []⟩
    (by decide) (by decide)
